import Mathlib

/-!
Shallow embedding of the otel-web instrumentation core (src/unnamed/part_000,
src/src/plugins/document-load.ts, src/src/plugins/tanstack-router.ts).
Spans are modelled as numeric handles; every tracer/span call made by the
instrumentation is recorded as a `SpanOp` in emission order, and each patched
or subscribed entry point is embedded as a pure function from its inputs
(including the outcome of the call it wraps) to the emitted operations,
the updated plugin state, and the value returned or raised to the caller.
-/

namespace OtelWeb

/-- Span status, mirroring `SpanStatusCode.OK` / `SpanStatusCode.ERROR`
with the optional message carried by `setStatus`. -/
inductive SpanStatus where
  | ok
  | error (message : String)
  deriving Repr, DecidableEq

/-- Attribute values appearing in the instrumentation (strings, numbers,
booleans). JS numbers used by the code are modelled as integers. -/
inductive AttrValue where
  | str (s : String)
  | num (n : Int)
  | bool (b : Bool)
  deriving Repr, DecidableEq

/-- One call made on the tracer or on a span handle, in emission order.
`start` carries the optional explicit `startTime` and the attribute list of
the `startSpan` options; `endSpan` carries the optional explicit end time. -/
inductive SpanOp where
  | start (id : Nat) (name : String) (startTime : Option Int)
      (attrs : List (String × AttrValue))
  | setStatus (id : Nat) (status : SpanStatus)
  | setAttribute (id : Nat) (key : String) (value : AttrValue)
  | setAttributes (id : Nat) (attrs : List (String × AttrValue))
  | recordException (id : Nat) (message : String)
  | endSpan (id : Nat) (endTime : Option Int)
  deriving Repr, DecidableEq

/-- A JS value observed at an `instanceof Error` check: either an `Error`
instance carrying its `message`, or any other value. -/
inductive JsValue where
  | error (message : String)
  | other (tag : String)
  deriving Repr, DecidableEq

/-- The `instanceof Error` test on an optional `unknown` value
(`undefined` is not an `Error`). -/
def isErrorInstance : Option JsValue → Bool
  | some (.error _) => true
  | _ => false

/-! ## HTTP plugin (`createFetchPlugin`, src/unnamed/part_000 lines 196-406) -/

/-- A URL pattern: `RegExp.prototype.test` applied to the resolved URL,
modelled as a boolean predicate on strings. -/
def UrlPattern : Type := String → Bool

/-- `matchesAny` (line 219): true when some pattern tests true on the URL. -/
def matchesAny (url : String) (patterns : List UrlPattern) : Bool :=
  patterns.any (fun p => p url)

/-- A fetch `Response` as observed by the patched fetch: its status code and
the resolved numeric content length (`Number(headers.get("content-length")) || 0`). -/
structure Response where
  status : Nat
  contentLength : Int
  deriving Repr, DecidableEq

/-- The Fetch standard's `Response.ok`: status in the range 200-299. -/
def Response.ok (r : Response) : Bool :=
  decide (200 ≤ r.status) && decide (r.status < 300)

/-- Outcome of the wrapped original `fetch` call: it resolves with a
response or rejects with a thrown value. -/
inductive FetchOutcome where
  | success (r : Response)
  | failure (e : JsValue)
  deriving Repr, DecidableEq

/-- What the patched fetch hands back to its caller. -/
inductive FetchReturn where
  | returned (r : Response)
  | raised (e : JsValue)
  deriving Repr, DecidableEq

/-- Observable effect of one call through the patched `globalThis.fetch`. -/
structure FetchResult where
  ops : List SpanOp
  calledOriginal : Bool
  propagationHeadersInjected : Bool
  result : FetchReturn
  deriving DecidableEq

/-- The patched `globalThis.fetch` installed by `patchFetch`
(lines 254-314), as a function of the resolved URL and method
(`resolveUrl` / `resolveMethod` delegate to the URL platform API), a fresh
span handle, and the outcome of the wrapped original call. -/
def patchedFetch (ignoreUrls propagateToUrls : List UrlPattern)
    (spanId : Nat) (url method : String) (outcome : FetchOutcome) :
    FetchResult :=
  if matchesAny url ignoreUrls then
    { ops := []
      calledOriginal := true
      propagationHeadersInjected := false
      result := match outcome with
        | .success r => .returned r
        | .failure e => .raised e }
  else
    let startOp := SpanOp.start spanId ("HTTP " ++ method) none
      [("http.method", .str method), ("http.url", .str url)]
    let injected := matchesAny url propagateToUrls
    match outcome with
    | .success r =>
      { ops := [startOp,
          SpanOp.setAttributes spanId
            [("http.status_code", .num r.status),
             ("http.response.content_length", .num r.contentLength)],
          (if r.ok then SpanOp.setStatus spanId .ok
           else SpanOp.setStatus spanId
             (.error ("HTTP " ++ toString r.status))),
          SpanOp.endSpan spanId none]
        calledOriginal := true
        propagationHeadersInjected := injected
        result := .returned r }
    | .failure e =>
      { ops := [startOp,
          SpanOp.setStatus spanId (.error (match e with
            | .error m => m
            | .other _ => "Fetch failed"))] ++
          (match e with
            | .error m => [SpanOp.recordException spanId m]
            | .other _ => []) ++
          [SpanOp.endSpan spanId none]
        calledOriginal := true
        propagationHeadersInjected := injected
        result := .raised e }

/-- The per-request carrier fields set by the patched `XMLHttpRequest.open`
(`__otel_method`, `__otel_url`, lines 320-332); absent when `open` never went
through the patched version. -/
structure XhrCarrier where
  otelMethod : Option String
  otelUrl : Option String
  deriving Repr, DecidableEq

/-- Observable effect of one call through the patched
`XMLHttpRequest.prototype.send` (span completion happens later, in the
`loadend`/`error` listeners, modelled separately). -/
structure XhrSendResult where
  ops : List SpanOp
  calledOriginal : Bool
  bodyPassed : Option String
  propagationHeadersInjected : Bool
  listenersRegistered : Bool
  deriving Repr, DecidableEq

/-- The patched `XMLHttpRequest.prototype.send` (lines 334-382): reads the
carrier fields, passes straight through when either is missing/empty
(JS falsiness of `undefined`/`""`) or the URL is ignored, otherwise starts
the span, optionally injects propagation headers, and registers the
`loadend`/`error` listeners before calling the original send. -/
def patchedXhrSend (ignoreUrls propagateToUrls : List UrlPattern)
    (spanId : Nat) (xhr : XhrCarrier) (body : Option String) :
    XhrSendResult :=
  let passthrough : XhrSendResult :=
    { ops := []
      calledOriginal := true
      bodyPassed := body
      propagationHeadersInjected := false
      listenersRegistered := false }
  match xhr.otelUrl, xhr.otelMethod with
  | some url, some method =>
    if url.isEmpty || method.isEmpty || matchesAny url ignoreUrls then
      passthrough
    else
      { ops := [SpanOp.start spanId ("HTTP " ++ method) none
          [("http.method", .str method), ("http.url", .str url)]]
        calledOriginal := true
        bodyPassed := body
        propagationHeadersInjected := matchesAny url propagateToUrls
        listenersRegistered := true }
  | _, _ => passthrough

/-- The `loadend` listener registered by the patched send (lines 359-371):
records the status code, marks OK for status 200-399 and ERROR with
`HTTP <status>` otherwise, then ends the span. -/
def xhrOnLoadend (spanId : Nat) (status : Nat) : List SpanOp :=
  [SpanOp.setAttribute spanId "http.status_code" (.num status),
   (if 200 ≤ status ∧ status < 400 then SpanOp.setStatus spanId .ok
    else SpanOp.setStatus spanId (.error ("HTTP " ++ toString status))),
   SpanOp.endSpan spanId none]

/-- The `error` listener registered by the patched send (lines 373-379). -/
def xhrOnError (spanId : Nat) : List SpanOp :=
  [SpanOp.setStatus spanId (.error "XHR request failed"),
   SpanOp.endSpan spanId none]

/-! ### Patch / teardown state of the HTTP plugin (lines 227-229, 385-405) -/

/-- The browser globals the plugin patches; function references are
modelled as values of an abstract type `F` compared by identity. -/
structure BrowserGlobals (F : Type) where
  fetchFn : F
  xhrOpen : F
  xhrSend : F
  deriving Repr, DecidableEq

/-- Closure state of one `createFetchPlugin` instance: the current globals
together with the captured `originalFetch` / `originalXhrOpen` /
`originalXhrSend` snapshots (`undefined` when not holding a snapshot). -/
structure PatchState (F : Type) where
  globals : BrowserGlobals F
  originalFetch : Option F
  originalXhrOpen : Option F
  originalXhrSend : Option F
  deriving Repr, DecidableEq

/-- `setup(tracer)` of the HTTP plugin (lines 386-389): `patchFetch` saves
`globalThis.fetch` and replaces it, then `patchXhr` does the same for
`XMLHttpRequest.prototype.open` and `.send`. The freshly created patched
closures are passed in as `pf`, `po`, `ps`. -/
def fetchPluginSetup {F : Type} (st : PatchState F) (pf po ps : F) :
    PatchState F :=
  { globals := { fetchFn := pf, xhrOpen := po, xhrSend := ps }
    originalFetch := some st.globals.fetchFn
    originalXhrOpen := some st.globals.xhrOpen
    originalXhrSend := some st.globals.xhrSend }

/-- `teardown()` of the HTTP plugin (lines 391-404): each global is restored
from its snapshot only when a snapshot is held, and the snapshot is cleared. -/
def fetchPluginTeardown {F : Type} (st : PatchState F) : PatchState F :=
  let st1 := match st.originalFetch with
    | some f =>
      { st with globals := { st.globals with fetchFn := f }
                originalFetch := none }
    | none => st
  let st2 := match st1.originalXhrOpen with
    | some f =>
      { st1 with globals := { st1.globals with xhrOpen := f }
                 originalXhrOpen := none }
    | none => st1
  match st2.originalXhrSend with
  | some f =>
    { st2 with globals := { st2.globals with xhrSend := f }
               originalXhrSend := none }
  | none => st2

/-! ## Data-fetch cache plugin (`createQueryPlugin`, lines 49-195) -/

/-- JS `Map.has`. The pending-span tables are modelled as insertion-ordered
association lists, matching `Map` iteration order. -/
def mapHas {κ ν : Type} [DecidableEq κ] (m : List (κ × ν)) (k : κ) : Bool :=
  m.any (fun p => p.1 = k)

/-- JS `Map.get`, returning `undefined` as `none`. -/
def mapGet {κ ν : Type} [DecidableEq κ] (m : List (κ × ν)) (k : κ) :
    Option ν :=
  (m.find? (fun p => p.1 = k)).map Prod.snd

/-- JS `Map.set`: overwrite in place when the key is present, else append. -/
def mapSet {κ ν : Type} [DecidableEq κ] (m : List (κ × ν)) (k : κ) (v : ν) :
    List (κ × ν) :=
  if mapHas m k then m.map (fun p => if p.1 = k then (k, v) else p)
  else m ++ [(k, v)]

/-- JS `Map.delete`. -/
def mapDelete {κ ν : Type} [DecidableEq κ] (m : List (κ × ν)) (k : κ) :
    List (κ × ν) :=
  m.filter (fun p => p.1 ≠ k)

/-- A query as seen by the cache listener; `queryKey` is carried in its
`JSON.stringify` serialization, which is all the code uses. -/
structure QueryLike where
  queryKeyJson : String
  queryHash : String
  deriving Repr, DecidableEq

/-- The `action` payload of a cache notification. -/
structure CacheAction where
  type : String
  error : Option JsValue
  deriving Repr, DecidableEq

/-- A query-cache notification event. -/
structure QueryCacheEvent where
  type : String
  query : QueryLike
  action : Option CacheAction
  deriving Repr, DecidableEq

/-- A mutation as seen by the cache listener; `options.mutationKey` is
carried in serialized form, absent when undefined. -/
structure MutationLike where
  mutationId : Nat
  mutationKeyJson : Option String
  deriving Repr, DecidableEq

/-- A mutation-cache notification event (`mutation` may be absent). -/
structure MutationCacheEvent where
  type : String
  mutation : Option MutationLike
  action : Option CacheAction
  deriving Repr, DecidableEq

/-- Closure state of one `createQueryPlugin` instance: the two pending-span
tables (lines 89-90) plus a counter supplying fresh span handles. -/
structure QueryPluginState where
  querySpans : List (String × Nat)
  mutationSpans : List (Nat × Nat)
  nextSpanId : Nat
  deriving Repr, DecidableEq

/-- The query-cache subscriber (lines 94-132): `fetch` opens a span only
when the hash has none open; `success` / `error` close and remove it;
anything else is ignored. -/
def onQueryCacheEvent (st : QueryPluginState) (event : QueryCacheEvent) :
    QueryPluginState × List SpanOp :=
  match event.action with
  | none => (st, [])
  | some action =>
    if event.type ≠ "updated" then (st, [])
    else
      let queryHash := event.query.queryHash
      let keyJson := event.query.queryKeyJson
      if action.type = "fetch" ∧ ¬ mapHas st.querySpans queryHash then
        let id := st.nextSpanId
        ({ st with querySpans := mapSet st.querySpans queryHash id
                   nextSpanId := id + 1 },
         [SpanOp.start id ("query " ++ keyJson) none
            [("query.hash", .str queryHash), ("query.key", .str keyJson)]])
      else if action.type = "success" then
        match mapGet st.querySpans queryHash with
        | some id =>
          ({ st with querySpans := mapDelete st.querySpans queryHash },
           [SpanOp.setStatus id .ok, SpanOp.endSpan id none])
        | none => (st, [])
      else if action.type = "error" then
        match mapGet st.querySpans queryHash with
        | some id =>
          ({ st with querySpans := mapDelete st.querySpans queryHash },
           [SpanOp.setStatus id (.error (match action.error with
              | some (.error m) => m
              | _ => "Unknown error"))] ++
            (match action.error with
              | some (.error m) => [SpanOp.recordException id m]
              | _ => []) ++
            [SpanOp.endSpan id none])
        | none => (st, [])
      else (st, [])

/-- The mutation-cache subscriber (lines 134-177): `pending` opens a span
only when the id has none open, named by the mutation key when present,
else by the numeric id; `success` / `error` close and remove it. -/
def onMutationCacheEvent (st : QueryPluginState) (event : MutationCacheEvent) :
    QueryPluginState × List SpanOp :=
  match event.action, event.mutation with
  | some action, some mutation =>
    if event.type ≠ "updated" then (st, [])
    else
      let mutationId := mutation.mutationId
      let mutationKey := mutation.mutationKeyJson
      if action.type = "pending" ∧ ¬ mapHas st.mutationSpans mutationId then
        let id := st.nextSpanId
        ({ st with mutationSpans := mapSet st.mutationSpans mutationId id
                   nextSpanId := id + 1 },
         [SpanOp.start id
            ("mutation " ++ (match mutationKey with
              | some k => k
              | none => toString mutationId)) none
            [("mutation.id", .num mutationId),
             ("mutation.key", .str (mutationKey.getD ""))]])
      else if action.type = "success" then
        match mapGet st.mutationSpans mutationId with
        | some id =>
          ({ st with mutationSpans := mapDelete st.mutationSpans mutationId },
           [SpanOp.setStatus id .ok, SpanOp.endSpan id none])
        | none => (st, [])
      else if action.type = "error" then
        match mapGet st.mutationSpans mutationId with
        | some id =>
          ({ st with mutationSpans := mapDelete st.mutationSpans mutationId },
           [SpanOp.setStatus id (.error (match action.error with
              | some (.error m) => m
              | _ => "Unknown error"))] ++
            (match action.error with
              | some (.error m) => [SpanOp.recordException id m]
              | _ => []) ++
            [SpanOp.endSpan id none])
        | none => (st, [])
      else (st, [])
  | _, _ => (st, [])

/-! ## Navigation plugin (`createRouterPlugin`, src/src/plugins/tanstack-router.ts) -/

/-- A router navigation event: origin path (absent on initial load),
destination path, and the path-changed flag. -/
structure NavigationEvent where
  fromPathname : Option String
  toPathname : String
  pathChanged : Bool
  deriving Repr, DecidableEq

/-- Closure state of one `createRouterPlugin` instance: the single active
navigation span (line 22) plus a counter supplying fresh span handles. -/
structure RouterState where
  activeSpan : Option Nat
  nextSpanId : Nat
  deriving Repr, DecidableEq

/-- The `onBeforeNavigate` subscriber (lines 26-38): a still-open previous
navigation span is ended (no status set on it), then a new span
`navigate <destination path>` is started and becomes active. -/
def onBeforeNavigate (st : RouterState) (event : NavigationEvent) :
    RouterState × List SpanOp :=
  let endOps := match st.activeSpan with
    | some s => [SpanOp.endSpan s none]
    | none => []
  let id := st.nextSpanId
  ({ activeSpan := some id, nextSpanId := id + 1 },
   endOps ++
     [SpanOp.start id ("navigate " ++ event.toPathname) none
        [("router.from", .str (event.fromPathname.getD "")),
         ("router.to", .str event.toPathname),
         ("router.path_changed", .bool event.pathChanged)]])

/-- The `onResolved` subscriber (lines 40-46): the active span, if any, is
marked OK, ended and cleared. -/
def onResolved (st : RouterState) : RouterState × List SpanOp :=
  match st.activeSpan with
  | some s =>
    ({ st with activeSpan := none },
     [SpanOp.setStatus s .ok, SpanOp.endSpan s none])
  | none => (st, [])

/-! ## Page-load plugin (`createDocumentLoadPlugin`, src/src/plugins/document-load.ts) -/

/-- A recorded `PerformanceNavigationTiming` entry, restricted to the fields
the plugin reads; high-resolution timestamps are modelled as integers. -/
structure NavTimingEntry where
  startTime : Int
  navType : String
  redirectCount : Int
  domainLookupStart : Int
  domainLookupEnd : Int
  connectStart : Int
  connectEnd : Int
  secureConnectionStart : Int
  requestStart : Int
  responseStart : Int
  responseEnd : Int
  domInteractive : Int
  domContentLoadedEventEnd : Int
  loadEventEnd : Int
  transferSize : Int
  decodedBodySize : Int
  deriving Repr, DecidableEq

/-- The attribute list built by `emitNavigationSpan` (lines 18-39). -/
def navigationAttrs (locationHref : String) (navigation : NavTimingEntry) :
    List (String × AttrValue) :=
  [("document.url", .str locationHref),
   ("document.type", .str navigation.navType),
   ("document.redirect_count", .num navigation.redirectCount),
   ("timing.dns_ms",
     .num (navigation.domainLookupEnd - navigation.domainLookupStart)),
   ("timing.connect_ms",
     .num (navigation.connectEnd - navigation.connectStart)),
   ("timing.tls_ms",
     .num (if navigation.secureConnectionStart > 0 then
       navigation.connectEnd - navigation.secureConnectionStart else 0)),
   ("timing.ttfb_ms",
     .num (navigation.responseStart - navigation.requestStart)),
   ("timing.response_ms",
     .num (navigation.responseEnd - navigation.responseStart)),
   ("timing.dom_interactive_ms", .num navigation.domInteractive),
   ("timing.dom_content_loaded_ms",
     .num navigation.domContentLoadedEventEnd),
   ("timing.load_ms", .num navigation.loadEventEnd),
   ("transfer.size", .num navigation.transferSize),
   ("transfer.decoded_size", .num navigation.decodedBodySize)]

/-- `emitNavigationSpan` (lines 10-42): reads the first recorded navigation
entry; when present, emits a `document.load` span starting at the entry's
`startTime` and ended at its `loadEventEnd`. -/
def emitNavigationSpan (locationHref : String) (spanId : Nat)
    (navEntries : List NavTimingEntry) : List SpanOp :=
  match navEntries with
  | [] => []
  | navigation :: _ =>
    [SpanOp.start spanId "document.load" (some navigation.startTime)
       (navigationAttrs locationHref navigation),
     SpanOp.endSpan spanId (some navigation.loadEventEnd)]

/-- Observable effect of the navigation-timing part of the plugin's
`setup` (lines 90-96): the operations emitted synchronously, and whether a
`load` listener was registered with the `once` option. -/
structure DocLoadSetupResult where
  ops : List SpanOp
  loadListenerRegistered : Bool
  loadListenerOnce : Bool
  deriving Repr, DecidableEq

/-- Navigation-timing branch of `setup` (lines 90-96): when
`document.readyState` is `"complete"`, `emitNavigationSpan` runs
synchronously; otherwise a once-only `load` listener defers it. -/
def documentLoadSetupNavigation (readyState locationHref : String)
    (spanId : Nat) (navEntries : List NavTimingEntry) : DocLoadSetupResult :=
  if readyState = "complete" then
    { ops := emitNavigationSpan locationHref spanId navEntries
      loadListenerRegistered := false
      loadListenerOnce := false }
  else
    { ops := []
      loadListenerRegistered := true
      loadListenerOnce := true }

/-- Whether a list of span operations contains any `setStatus` call. -/
def containsSetStatus (ops : List SpanOp) : Bool :=
  ops.any (fun op => match op with
    | .setStatus _ _ => true
    | _ => false)

/-- Whether a list of span operations contains any `recordException` call. -/
def containsRecordException (ops : List SpanOp) : Bool :=
  ops.any (fun op => match op with
    | .recordException _ _ => true
    | _ => false)

/-! ## Claim theorems -/

/-- Claim C1, counterexample: status 304 lies in the success/redirect
(non-error) range, yet the patched fetch marks the span ERROR with
message `HTTP 304` and never marks it OK, contradicting the claim that
both patched mechanisms mark OK on that whole range. -/
theorem C1_counterexample :
    (200 ≤ 304 ∧ 304 < 400) ∧
    SpanOp.setStatus 0 SpanStatus.ok ∉
      (patchedFetch [] [] 0 "https://api.example.com/a" "GET"
        (.success { status := 304, contentLength := 0 })).ops ∧
    SpanOp.setStatus 0 (SpanStatus.error "HTTP 304") ∈
      (patchedFetch [] [] 0 "https://api.example.com/a" "GET"
        (.success { status := 304, contentLength := 0 })).ops := by
  decide

/-- Claim C1 (amended): on a completed response of a non-ignored request,
the patched fetch marks the span OK exactly when the status is 200-299
(`response.ok`), while the patched XHR loadend handler marks OK exactly
when the status is 200-399; otherwise the span is marked ERROR with the
message `HTTP <status>`, in both cases immediately before the span is
ended. -/
theorem C1_status_marking (ig pr : List UrlPattern) (id : Nat)
    (url method : String) (r : Response) (status : Nat)
    (h : matchesAny url ig = false) :
    (patchedFetch ig pr id url method (.success r)).ops =
      [SpanOp.start id ("HTTP " ++ method) none
         [("http.method", .str method), ("http.url", .str url)],
       SpanOp.setAttributes id
         [("http.status_code", .num r.status),
          ("http.response.content_length", .num r.contentLength)],
       SpanOp.setStatus id (if 200 ≤ r.status ∧ r.status < 300 then .ok
         else .error ("HTTP " ++ toString r.status)),
       SpanOp.endSpan id none] ∧
    xhrOnLoadend id status =
      [SpanOp.setAttribute id "http.status_code" (.num status),
       SpanOp.setStatus id (if 200 ≤ status ∧ status < 400 then .ok
         else .error ("HTTP " ++ toString status)),
       SpanOp.endSpan id none] := by
  constructor
  · simp only [patchedFetch, h, Bool.false_eq_true, if_false, Response.ok]
    by_cases h2 : 200 ≤ r.status ∧ r.status < 300
    · simp [h2]
    · rw [if_neg h2, if_neg]
      simp only [Bool.and_eq_true, decide_eq_true_eq]
      exact h2
  · by_cases h3 : 200 ≤ status ∧ status < 400 <;> simp [xhrOnLoadend, h3]

/-- Witness for `C1_status_marking` at a concrete request and status. -/
theorem C1_status_marking_witness :
    (patchedFetch [] [] 3 "https://api.example.com/u" "GET"
        (.success { status := 204, contentLength := 7 })).ops =
      [SpanOp.start 3 "HTTP GET" none
         [("http.method", .str "GET"),
          ("http.url", .str "https://api.example.com/u")],
       SpanOp.setAttributes 3
         [("http.status_code", .num 204),
          ("http.response.content_length", .num 7)],
       SpanOp.setStatus 3 (if 200 ≤ 204 ∧ 204 < 300 then .ok
         else .error ("HTTP " ++ toString 204)),
       SpanOp.endSpan 3 none] ∧
    xhrOnLoadend 3 304 =
      [SpanOp.setAttribute 3 "http.status_code" (.num 304),
       SpanOp.setStatus 3 (if 200 ≤ 304 ∧ 304 < 400 then .ok
         else .error ("HTTP " ++ toString 304)),
       SpanOp.endSpan 3 none] :=
  C1_status_marking [] [] 3 "https://api.example.com/u" "GET"
    { status := 204, contentLength := 7 } 304 (by decide)

/-- Claim C2: starting from a freshly created HTTP-plugin instance (no
snapshots held), setup followed by teardown restores the exact pre-patch
references for fetch, XHR open and XHR send; teardown without a prior
setup is a no-op; and a second teardown after a teardown is a no-op. -/
theorem C2_patch_symmetry {F : Type} (st : PatchState F) (pf po ps : F)
    (hf : st.originalFetch = none) (ho : st.originalXhrOpen = none)
    (hs : st.originalXhrSend = none) :
    fetchPluginTeardown (fetchPluginSetup st pf po ps) = st ∧
    fetchPluginTeardown st = st ∧
    fetchPluginTeardown (fetchPluginTeardown (fetchPluginSetup st pf po ps))
      = fetchPluginTeardown (fetchPluginSetup st pf po ps) := by
  obtain ⟨⟨gf, go, gs⟩, f1, o1, s1⟩ := st
  obtain rfl : f1 = none := hf
  obtain rfl : o1 = none := ho
  obtain rfl : s1 = none := hs
  exact ⟨rfl, rfl, rfl⟩

/-- Witness for `C2_patch_symmetry` on concrete function references. -/
theorem C2_patch_symmetry_witness :
    fetchPluginTeardown (fetchPluginSetup
      (F := Nat)
      { globals := { fetchFn := 1, xhrOpen := 2, xhrSend := 3 }
        originalFetch := none
        originalXhrOpen := none
        originalXhrSend := none } 10 11 12) =
      { globals := { fetchFn := 1, xhrOpen := 2, xhrSend := 3 }
        originalFetch := none
        originalXhrOpen := none
        originalXhrSend := none } ∧
    fetchPluginTeardown
      (F := Nat)
      { globals := { fetchFn := 1, xhrOpen := 2, xhrSend := 3 }
        originalFetch := none
        originalXhrOpen := none
        originalXhrSend := none } =
      { globals := { fetchFn := 1, xhrOpen := 2, xhrSend := 3 }
        originalFetch := none
        originalXhrOpen := none
        originalXhrSend := none } ∧
    fetchPluginTeardown (fetchPluginTeardown (fetchPluginSetup
      (F := Nat)
      { globals := { fetchFn := 1, xhrOpen := 2, xhrSend := 3 }
        originalFetch := none
        originalXhrOpen := none
        originalXhrSend := none } 10 11 12)) =
      fetchPluginTeardown (fetchPluginSetup
        (F := Nat)
        { globals := { fetchFn := 1, xhrOpen := 2, xhrSend := 3 }
          originalFetch := none
          originalXhrOpen := none
          originalXhrSend := none } 10 11 12) :=
  C2_patch_symmetry
    { globals := { fetchFn := 1, xhrOpen := 2, xhrSend := 3 }
      originalFetch := none
      originalXhrOpen := none
      originalXhrSend := none } 10 11 12 rfl rfl rfl

/-- Claim C3: a second start event (`fetch` for a query hash already in the
query table, `pending` for a mutation id already in the mutation table)
creates no span and leaves the plugin state, including the existing table
entries, completely unchanged. -/
theorem C3_duplicate_start_noop (st : QueryPluginState) (q : QueryLike)
    (mid : Nat) (mk : Option String) (e1 e2 : Option JsValue)
    (hq : mapHas st.querySpans q.queryHash = true)
    (hm : mapHas st.mutationSpans mid = true) :
    onQueryCacheEvent st
      { type := "updated", query := q,
        action := some { type := "fetch", error := e1 } } = (st, []) ∧
    onMutationCacheEvent st
      { type := "updated",
        mutation := some { mutationId := mid, mutationKeyJson := mk },
        action := some { type := "pending", error := e2 } } = (st, []) := by
  constructor
  · simp [onQueryCacheEvent, hq]
  · simp [onMutationCacheEvent, hm]

/-- Witness for `C3_duplicate_start_noop` on concrete tables. -/
theorem C3_duplicate_start_noop_witness :
    onQueryCacheEvent
      { querySpans := [("h1", 5)], mutationSpans := [(2, 6)], nextSpanId := 7 }
      { type := "updated",
        query := { queryKeyJson := "[\x7bk\x7d]", queryHash := "h1" },
        action := some { type := "fetch", error := none } } =
      ({ querySpans := [("h1", 5)], mutationSpans := [(2, 6)],
         nextSpanId := 7 }, []) ∧
    onMutationCacheEvent
      { querySpans := [("h1", 5)], mutationSpans := [(2, 6)], nextSpanId := 7 }
      { type := "updated",
        mutation := some { mutationId := 2, mutationKeyJson := none },
        action := some { type := "pending", error := none } } =
      ({ querySpans := [("h1", 5)], mutationSpans := [(2, 6)],
         nextSpanId := 7 }, []) :=
  C3_duplicate_start_noop
    { querySpans := [("h1", 5)], mutationSpans := [(2, 6)], nextSpanId := 7 }
    { queryKeyJson := "[\x7bk\x7d]", queryHash := "h1" } 2 none none none
    (by decide) (by decide)

/-- Claim C4: when the wrapped original fetch throws on a non-ignored
request, the patched fetch marks the span ERROR (with the error message
when the thrown value is an `Error`, else `Fetch failed`), records the
exception exactly when the thrown value is an `Error`, ends the span, and
re-raises the original thrown value unchanged. -/
theorem C4_fetch_failure (ig pr : List UrlPattern) (id : Nat)
    (url method : String) (e : JsValue)
    (h : matchesAny url ig = false) :
    (patchedFetch ig pr id url method (.failure e)).result =
      FetchReturn.raised e ∧
    (patchedFetch ig pr id url method (.failure e)).ops =
      [SpanOp.start id ("HTTP " ++ method) none
         [("http.method", .str method), ("http.url", .str url)],
       SpanOp.setStatus id (.error (match e with
         | .error m => m
         | .other _ => "Fetch failed"))] ++
      (match e with
        | .error m => [SpanOp.recordException id m]
        | .other _ => []) ++
      [SpanOp.endSpan id none] := by
  cases e <;> simp [patchedFetch, h]

/-- Witness for `C4_fetch_failure` at a concrete thrown `Error`. -/
theorem C4_fetch_failure_witness :
    (patchedFetch [] [] 1 "https://api.example.com/b" "POST"
        (.failure (.error "boom"))).result =
      FetchReturn.raised (.error "boom") ∧
    (patchedFetch [] [] 1 "https://api.example.com/b" "POST"
        (.failure (.error "boom"))).ops =
      [SpanOp.start 1 "HTTP POST" none
         [("http.method", .str "POST"),
          ("http.url", .str "https://api.example.com/b")],
       SpanOp.setStatus 1 (.error "boom")] ++
      [SpanOp.recordException 1 "boom"] ++
      [SpanOp.endSpan 1 none] :=
  C4_fetch_failure [] [] 1 "https://api.example.com/b" "POST"
    (.error "boom") (by decide)

/-- Claim C5: on a non-ignored request with a captured method and URL,
both the patched fetch and the patched XHR send inject trace-propagation
headers exactly when the resolved URL matches some propagation pattern. -/
theorem C5_propagation_iff (ig pr : List UrlPattern) (id : Nat)
    (url method : String) (outcome : FetchOutcome) (body : Option String)
    (hIg : matchesAny url ig = false) (hu : url.isEmpty = false)
    (hm : method.isEmpty = false) :
    (patchedFetch ig pr id url method outcome).propagationHeadersInjected
      = matchesAny url pr ∧
    (patchedXhrSend ig pr id
        { otelMethod := some method, otelUrl := some url }
        body).propagationHeadersInjected
      = matchesAny url pr := by
  constructor
  · cases outcome <;> simp [patchedFetch, hIg]
  · simp [patchedXhrSend, hIg, hu, hm]

/-- Witness for `C5_propagation_iff` at a concrete URL matching a
propagation pattern. -/
theorem C5_propagation_iff_witness :
    (patchedFetch [] [fun u => u = "https://api.example.com/c"] 2
        "https://api.example.com/c" "GET"
        (.success { status := 200, contentLength := 0 })).propagationHeadersInjected
      = matchesAny "https://api.example.com/c"
          [fun u => u = "https://api.example.com/c"] ∧
    (patchedXhrSend [] [fun u => u = "https://api.example.com/c"] 2
        { otelMethod := some "GET",
          otelUrl := some "https://api.example.com/c" }
        none).propagationHeadersInjected
      = matchesAny "https://api.example.com/c"
          [fun u => u = "https://api.example.com/c"] :=
  C5_propagation_iff [] [fun u => u = "https://api.example.com/c"] 2
    "https://api.example.com/c" "GET"
    (.success { status := 200, contentLength := 0 }) none
    (by decide) (by decide) (by decide)

/-- Claim C6: on a request whose resolved URL matches an ignore pattern,
the patched fetch and the patched XHR send emit no span operation, call
the original function, and hand back its outcome (result, failure, body)
unchanged. -/
theorem C6_ignored_bypass (ig pr : List UrlPattern) (id : Nat)
    (url method : String) (outcome : FetchOutcome) (body : Option String)
    (hIg : matchesAny url ig = true) :
    (patchedFetch ig pr id url method outcome).ops = [] ∧
    (patchedFetch ig pr id url method outcome).calledOriginal = true ∧
    (patchedFetch ig pr id url method outcome).result =
      (match outcome with
        | .success r => FetchReturn.returned r
        | .failure e => FetchReturn.raised e) ∧
    (patchedXhrSend ig pr id
        { otelMethod := some method, otelUrl := some url } body).ops = [] ∧
    (patchedXhrSend ig pr id
        { otelMethod := some method, otelUrl := some url }
        body).calledOriginal = true ∧
    (patchedXhrSend ig pr id
        { otelMethod := some method, otelUrl := some url }
        body).bodyPassed = body := by
  refine ⟨?_, ?_, ?_, ?_, ?_, ?_⟩ <;>
    simp [patchedFetch, patchedXhrSend, hIg]

/-- Witness for `C6_ignored_bypass` at a concrete ignored URL. -/
theorem C6_ignored_bypass_witness :
    (patchedFetch [fun u => u = "https://t.example.com/v1/traces"] [] 4
        "https://t.example.com/v1/traces" "POST"
        (.failure (.other "abort"))).ops = [] ∧
    (patchedFetch [fun u => u = "https://t.example.com/v1/traces"] [] 4
        "https://t.example.com/v1/traces" "POST"
        (.failure (.other "abort"))).calledOriginal = true ∧
    (patchedFetch [fun u => u = "https://t.example.com/v1/traces"] [] 4
        "https://t.example.com/v1/traces" "POST"
        (.failure (.other "abort"))).result =
      (match FetchOutcome.failure (.other "abort") with
        | .success r => FetchReturn.returned r
        | .failure e => FetchReturn.raised e) ∧
    (patchedXhrSend [fun u => u = "https://t.example.com/v1/traces"] [] 4
        { otelMethod := some "POST",
          otelUrl := some "https://t.example.com/v1/traces" }
        (some "payload")).ops = [] ∧
    (patchedXhrSend [fun u => u = "https://t.example.com/v1/traces"] [] 4
        { otelMethod := some "POST",
          otelUrl := some "https://t.example.com/v1/traces" }
        (some "payload")).calledOriginal = true ∧
    (patchedXhrSend [fun u => u = "https://t.example.com/v1/traces"] [] 4
        { otelMethod := some "POST",
          otelUrl := some "https://t.example.com/v1/traces" }
        (some "payload")).bodyPassed = some "payload" :=
  C6_ignored_bypass [fun u => u = "https://t.example.com/v1/traces"] [] 4
    "https://t.example.com/v1/traces" "POST" (.failure (.other "abort"))
    (some "payload") (by decide)

/-- Claim C7: an `onBeforeNavigate` event arriving while a previous
navigation span is still open first ends that span, with no `setStatus`
anywhere in the emitted operations, then starts a new active span named
`navigate <destination path>` carrying origin path, destination path and
the path-changed flag. -/
theorem C7_navigation_supersede (st : RouterState) (event : NavigationEvent)
    (s : Nat) (h : st.activeSpan = some s) :
    (onBeforeNavigate st event).2 =
      [SpanOp.endSpan s none,
       SpanOp.start st.nextSpanId ("navigate " ++ event.toPathname) none
         [("router.from", .str (event.fromPathname.getD "")),
          ("router.to", .str event.toPathname),
          ("router.path_changed", .bool event.pathChanged)]] ∧
    containsSetStatus (onBeforeNavigate st event).2 = false ∧
    (onBeforeNavigate st event).1.activeSpan = some st.nextSpanId := by
  refine ⟨?_, ?_, ?_⟩ <;> simp [onBeforeNavigate, h, containsSetStatus]

/-- Witness for `C7_navigation_supersede` at a concrete open navigation. -/
theorem C7_navigation_supersede_witness :
    (onBeforeNavigate { activeSpan := some 3, nextSpanId := 7 }
      { fromPathname := some "/a", toPathname := "/b",
        pathChanged := true }).2 =
      [SpanOp.endSpan 3 none,
       SpanOp.start 7 "navigate /b" none
         [("router.from", .str ((some "/a").getD "")),
          ("router.to", .str "/b"),
          ("router.path_changed", .bool true)]] ∧
    containsSetStatus (onBeforeNavigate
      { activeSpan := some 3, nextSpanId := 7 }
      { fromPathname := some "/a", toPathname := "/b",
        pathChanged := true }).2 = false ∧
    (onBeforeNavigate { activeSpan := some 3, nextSpanId := 7 }
      { fromPathname := some "/a", toPathname := "/b",
        pathChanged := true }).1.activeSpan = some 7 :=
  C7_navigation_supersede { activeSpan := some 3, nextSpanId := 7 }
    { fromPathname := some "/a", toPathname := "/b", pathChanged := true }
    3 rfl

/-- Claim C8: with a recorded navigation entry present, the setup of the
page-load plugin emits the `document.load` span synchronously exactly when
`document.readyState` is `"complete"`, with start time the entry's
`startTime` and end time its `loadEventEnd`; for any other ready state it
emits nothing and registers a once-only `load` listener whose later firing
emits that same span. -/
theorem C8_document_load_timing (href : String) (id : Nat)
    (navigation : NavTimingEntry) (rest : List NavTimingEntry) (rs : String)
    (h : rs ≠ "complete") :
    (documentLoadSetupNavigation "complete" href id (navigation :: rest)).ops =
      [SpanOp.start id "document.load" (some navigation.startTime)
         (navigationAttrs href navigation),
       SpanOp.endSpan id (some navigation.loadEventEnd)] ∧
    (documentLoadSetupNavigation rs href id (navigation :: rest)).ops = [] ∧
    (documentLoadSetupNavigation rs href id
        (navigation :: rest)).loadListenerRegistered = true ∧
    (documentLoadSetupNavigation rs href id
        (navigation :: rest)).loadListenerOnce = true ∧
    emitNavigationSpan href id (navigation :: rest) =
      [SpanOp.start id "document.load" (some navigation.startTime)
         (navigationAttrs href navigation),
       SpanOp.endSpan id (some navigation.loadEventEnd)] := by
  refine ⟨?_, ?_, ?_, ?_, ?_⟩ <;>
    simp [documentLoadSetupNavigation, emitNavigationSpan, h]

/-- Witness for `C8_document_load_timing` at a concrete navigation entry
and the `"loading"` ready state. -/
theorem C8_document_load_timing_witness :
    (documentLoadSetupNavigation "complete" "https://app.example.com/" 0
        [{ startTime := 0, navType := "navigate", redirectCount := 0,
           domainLookupStart := 1, domainLookupEnd := 2, connectStart := 2,
           connectEnd := 5, secureConnectionStart := 3, requestStart := 5,
           responseStart := 8, responseEnd := 9, domInteractive := 12,
           domContentLoadedEventEnd := 14, loadEventEnd := 20,
           transferSize := 1000, decodedBodySize := 2000 }]).ops =
      [SpanOp.start 0 "document.load" (some 0)
         (navigationAttrs "https://app.example.com/"
           { startTime := 0, navType := "navigate", redirectCount := 0,
             domainLookupStart := 1, domainLookupEnd := 2, connectStart := 2,
             connectEnd := 5, secureConnectionStart := 3, requestStart := 5,
             responseStart := 8, responseEnd := 9, domInteractive := 12,
             domContentLoadedEventEnd := 14, loadEventEnd := 20,
             transferSize := 1000, decodedBodySize := 2000 }),
       SpanOp.endSpan 0 (some 20)] ∧
    (documentLoadSetupNavigation "loading" "https://app.example.com/" 0
        [{ startTime := 0, navType := "navigate", redirectCount := 0,
           domainLookupStart := 1, domainLookupEnd := 2, connectStart := 2,
           connectEnd := 5, secureConnectionStart := 3, requestStart := 5,
           responseStart := 8, responseEnd := 9, domInteractive := 12,
           domContentLoadedEventEnd := 14, loadEventEnd := 20,
           transferSize := 1000, decodedBodySize := 2000 }]).ops = [] ∧
    (documentLoadSetupNavigation "loading" "https://app.example.com/" 0
        [{ startTime := 0, navType := "navigate", redirectCount := 0,
           domainLookupStart := 1, domainLookupEnd := 2, connectStart := 2,
           connectEnd := 5, secureConnectionStart := 3, requestStart := 5,
           responseStart := 8, responseEnd := 9, domInteractive := 12,
           domContentLoadedEventEnd := 14, loadEventEnd := 20,
           transferSize := 1000,
           decodedBodySize := 2000 }]).loadListenerRegistered = true ∧
    (documentLoadSetupNavigation "loading" "https://app.example.com/" 0
        [{ startTime := 0, navType := "navigate", redirectCount := 0,
           domainLookupStart := 1, domainLookupEnd := 2, connectStart := 2,
           connectEnd := 5, secureConnectionStart := 3, requestStart := 5,
           responseStart := 8, responseEnd := 9, domInteractive := 12,
           domContentLoadedEventEnd := 14, loadEventEnd := 20,
           transferSize := 1000,
           decodedBodySize := 2000 }]).loadListenerOnce = true ∧
    emitNavigationSpan "https://app.example.com/" 0
        [{ startTime := 0, navType := "navigate", redirectCount := 0,
           domainLookupStart := 1, domainLookupEnd := 2, connectStart := 2,
           connectEnd := 5, secureConnectionStart := 3, requestStart := 5,
           responseStart := 8, responseEnd := 9, domInteractive := 12,
           domContentLoadedEventEnd := 14, loadEventEnd := 20,
           transferSize := 1000, decodedBodySize := 2000 }] =
      [SpanOp.start 0 "document.load" (some 0)
         (navigationAttrs "https://app.example.com/"
           { startTime := 0, navType := "navigate", redirectCount := 0,
             domainLookupStart := 1, domainLookupEnd := 2, connectStart := 2,
             connectEnd := 5, secureConnectionStart := 3, requestStart := 5,
             responseStart := 8, responseEnd := 9, domInteractive := 12,
             domContentLoadedEventEnd := 14, loadEventEnd := 20,
             transferSize := 1000, decodedBodySize := 2000 }),
       SpanOp.endSpan 0 (some 20)] :=
  C8_document_load_timing "https://app.example.com/" 0
    { startTime := 0, navType := "navigate", redirectCount := 0,
      domainLookupStart := 1, domainLookupEnd := 2, connectStart := 2,
      connectEnd := 5, secureConnectionStart := 3, requestStart := 5,
      responseStart := 8, responseEnd := 9, domInteractive := 12,
      domContentLoadedEventEnd := 14, loadEventEnd := 20,
      transferSize := 1000, decodedBodySize := 2000 }
    [] "loading" (by decide)

/-- Claim C9: an `error` lifecycle event whose attached error value is not
an `Error` instance, hitting an open query or mutation span, ends that
span with status ERROR and the fixed message `Unknown error`, and no
`recordException` is emitted. -/
theorem C9_non_error_value (st : QueryPluginState) (q : QueryLike)
    (mid : Nat) (mk : Option String) (e : Option JsValue) (sid sidm : Nat)
    (hq : mapGet st.querySpans q.queryHash = some sid)
    (hm : mapGet st.mutationSpans mid = some sidm)
    (he : isErrorInstance e = false) :
    (onQueryCacheEvent st
      { type := "updated", query := q,
        action := some { type := "error", error := e } }).2 =
      [SpanOp.setStatus sid (.error "Unknown error"),
       SpanOp.endSpan sid none] ∧
    (onMutationCacheEvent st
      { type := "updated",
        mutation := some { mutationId := mid, mutationKeyJson := mk },
        action := some { type := "error", error := e } }).2 =
      [SpanOp.setStatus sidm (.error "Unknown error"),
       SpanOp.endSpan sidm none] ∧
    containsRecordException (onQueryCacheEvent st
      { type := "updated", query := q,
        action := some { type := "error", error := e } }).2 = false ∧
    containsRecordException (onMutationCacheEvent st
      { type := "updated",
        mutation := some { mutationId := mid, mutationKeyJson := mk },
        action := some { type := "error", error := e } }).2 = false := by
  have hcases : e = none ∨ ∃ t, e = some (.other t) := by
    match e with
    | none => exact Or.inl rfl
    | some (.error m) => simp [isErrorInstance] at he
    | some (.other t) => exact Or.inr ⟨t, rfl⟩
  rcases hcases with rfl | ⟨t, rfl⟩ <;>
    refine ⟨?_, ?_, ?_, ?_⟩ <;>
      simp [onQueryCacheEvent, onMutationCacheEvent, hq, hm,
        containsRecordException]

/-- Witness for `C9_non_error_value` with a string thrown as the error. -/
theorem C9_non_error_value_witness :
    (onQueryCacheEvent
      { querySpans := [("h1", 5)], mutationSpans := [(2, 6)], nextSpanId := 7 }
      { type := "updated",
        query := { queryKeyJson := "[1]", queryHash := "h1" },
        action := some { type := "error",
                         error := some (.other "string-throw") } }).2 =
      [SpanOp.setStatus 5 (.error "Unknown error"),
       SpanOp.endSpan 5 none] ∧
    (onMutationCacheEvent
      { querySpans := [("h1", 5)], mutationSpans := [(2, 6)], nextSpanId := 7 }
      { type := "updated",
        mutation := some { mutationId := 2, mutationKeyJson := none },
        action := some { type := "error",
                         error := some (.other "string-throw") } }).2 =
      [SpanOp.setStatus 6 (.error "Unknown error"),
       SpanOp.endSpan 6 none] ∧
    containsRecordException (onQueryCacheEvent
      { querySpans := [("h1", 5)], mutationSpans := [(2, 6)], nextSpanId := 7 }
      { type := "updated",
        query := { queryKeyJson := "[1]", queryHash := "h1" },
        action := some { type := "error",
                         error := some (.other "string-throw") } }).2
      = false ∧
    containsRecordException (onMutationCacheEvent
      { querySpans := [("h1", 5)], mutationSpans := [(2, 6)], nextSpanId := 7 }
      { type := "updated",
        mutation := some { mutationId := 2, mutationKeyJson := none },
        action := some { type := "error",
                         error := some (.other "string-throw") } }).2
      = false :=
  C9_non_error_value
    { querySpans := [("h1", 5)], mutationSpans := [(2, 6)], nextSpanId := 7 }
    { queryKeyJson := "[1]", queryHash := "h1" } 2 none
    (some (.other "string-throw")) 5 6 (by decide) (by decide) (by decide)

/-- Claim C10: when the carrier object holds no captured method and no
captured URL (open never went through the patched open), the patched XHR
send calls the original send with the same body, creates no span, and
injects no propagation headers. -/
theorem C10_unpatched_open (ig pr : List UrlPattern) (id : Nat)
    (body : Option String) (xhr : XhrCarrier)
    (hm : xhr.otelMethod = none) (hu : xhr.otelUrl = none) :
    patchedXhrSend ig pr id xhr body =
      { ops := [], calledOriginal := true, bodyPassed := body,
        propagationHeadersInjected := false,
        listenersRegistered := false } := by
  obtain ⟨m1, u1⟩ := xhr
  obtain rfl : m1 = none := hm
  obtain rfl : u1 = none := hu
  rfl

/-- Witness for `C10_unpatched_open` on a concrete body. -/
theorem C10_unpatched_open_witness :
    patchedXhrSend [] [] 9 { otelMethod := none, otelUrl := none }
        (some "data") =
      { ops := [], calledOriginal := true, bodyPassed := some "data",
        propagationHeadersInjected := false,
        listenersRegistered := false } :=
  C10_unpatched_open [] [] 9 (some "data")
    { otelMethod := none, otelUrl := none } rfl rfl

end OtelWeb
